import Mathlib

/-!
Verification of the agent orchestration and streaming pipeline
(`src/agents/*.rs`, `src/handlers.rs`) against its specification.

Modelling conventions:
* UUIDs (`Uuid::now_v7()`) are modelled by a counter: each draw yields the
  current counter value and increments it; distinct draws give distinct ids.
* The shared `CancellationToken` cell (`Arc<RwLock<bool>>`) is a `Bool`;
  the `RequestManager`'s map from id to shared token is an association list
  from the drawn id to the token's current value, with insert/remove
  mirroring `HashMap` semantics (insert replaces, remove deletes the key).
* Asynchronous effects are made explicit: each agent `execute` is a function
  from its inputs and the outcome of the external inference backend to the
  ordered list of actions it performs (event emissions and backend calls)
  together with its `Result` value.
-/

namespace CxAgent

/-- Recognized semantic keys of a parsed prompt, as consumed by
`TaskDetector::detect_task` and `build_parameters`
(`src/agents/task_detector.rs`). -/
inductive PromptKey
  | comparison
  | description
  | document
  | object
  | last
  | all
deriving DecidableEq, Repr

/-- Time periods recognized by the context parser. Modelled from the spec:
the file `prompt_context.rs` is not in the sources; §3 describes a closed
enumeration "day/week/month/…" and the tests use `Period::Month`. -/
inductive Period
  | day
  | week
  | month
  | year
deriving DecidableEq, Repr

/-- Parser output consumed by the task detector. Modelled from the spec and
from the field accesses in `task_detector.rs` (`keys`, `period`, `amount`);
the defining file `prompt_context.rs` is not in the sources. -/
structure PromptContext where
  keys : List PromptKey
  period : Option Period
  amount : Option Nat
deriving DecidableEq, Repr

/-- `TaskParameters` (`src/agents/task_detector.rs`). -/
structure TaskParameters where
  last : Bool
  all : Bool
  period : Option Period
  amount : Option Nat
deriving DecidableEq, Repr

/-- `Task` (`src/agents/task_detector.rs`). -/
inductive Task
  | object (parameters : TaskParameters)
  | document (parameters : TaskParameters)
  | description (parameters : TaskParameters)
  | comparison (parameters : TaskParameters)
  | chat
deriving DecidableEq, Repr

/-- Parser errors; `detect_task` never constructs one, so only the type's
existence matters here. -/
abbrev ParserError := String

/-- `TaskDetector::build_parameters` (`src/agents/task_detector.rs`). -/
def build_parameters (context : PromptContext) : TaskParameters :=
  { last := context.keys.contains PromptKey.last
    all := context.keys.contains PromptKey.all
    period := context.period
    amount := context.amount }

/-- `TaskDetector::detect_task` (`src/agents/task_detector.rs`): cascade of
membership tests in the order Comparison, Description, Document, Object,
defaulting to Chat. -/
def detect_task (prompt_context : PromptContext) (_prompt : String) :
    Except ParserError Task :=
  let parameters := build_parameters prompt_context
  if prompt_context.keys.contains PromptKey.comparison then
    Except.ok (Task.comparison parameters)
  else if prompt_context.keys.contains PromptKey.description then
    Except.ok (Task.description parameters)
  else if prompt_context.keys.contains PromptKey.document then
    Except.ok (Task.document parameters)
  else if prompt_context.keys.contains PromptKey.object then
    Except.ok (Task.object parameters)
  else
    Except.ok Task.chat

/-- The classification priority as the spec words it: "Comparison >
Description > Document > Object > Chat(default)", evaluated top to bottom,
first match wins. Written from the spec's words, to be compared with
`detect_task`. -/
def spec_priority_choice (context : PromptContext) : Task :=
  let parameters := build_parameters context
  if context.keys.contains PromptKey.comparison then Task.comparison parameters
  else if context.keys.contains PromptKey.description then Task.description parameters
  else if context.keys.contains PromptKey.document then Task.document parameters
  else if context.keys.contains PromptKey.object then Task.object parameters
  else Task.chat

/-- Does `pat` start `cs`? (char-list prefix test). -/
def chars_lead : List Char → List Char → Bool
  | _, [] => true
  | [], _ :: _ => false
  | c :: cs, p :: ps => c == p && chars_lead cs ps

/-- Does `pat` occur contiguously inside the char list? -/
def chars_have (pat : List Char) : List Char → Bool
  | [] => pat.isEmpty
  | c :: rest => chars_lead (c :: rest) pat || chars_have pat rest

/-- Rust `str::contains(pat)`: substring occurrence, as used by
`e.to_string().contains("cancelled")` in `handle_request_stream`. -/
def contains_substring (s pat : String) : Bool :=
  chars_have pat.toList s.toList

/-- Request identifiers. `Uuid::now_v7().to_string()` draws are modelled as
naturals from a counter; `"unknown"` is the literal id the SSE adapter puts
on its serialization-failure event (`src/handlers.rs`). -/
inductive RequestId
  | uuid (n : Nat)
  | unknown
deriving DecidableEq, Repr

/-- `StreamEvent` (`src/agents/events.rs`). The free-form
`serde_json::Value` payload of the four structured chunk kinds is modelled
by the echo of the resolved `TaskParameters` it always contains; its
remaining fields are literal constants in the agents and play no role in
any claim. -/
inductive StreamEvent
  | started (request_id : RequestId) (timestamp : Int)
  | coordinatorThinking (request_id : RequestId) (message : String)
  | textChunk (request_id : RequestId) (chunk : String)
  | objectChunk (request_id : RequestId) (data : TaskParameters)
  | documentChunk (request_id : RequestId) (data : TaskParameters)
  | descriptionChunk (request_id : RequestId) (data : TaskParameters)
  | comparisonChunk (request_id : RequestId) (data : TaskParameters)
  | completed (request_id : RequestId) (final_result : String) (timestamp : Int)
  | error (request_id : RequestId) (error : String) (recoverable : Bool)
  | cancelled (request_id : RequestId) (reason : String)
deriving DecidableEq, Repr

/-- Is this one of the terminal kinds `Completed`, `Error`, `Cancelled`
(the match in `chat_stream_handler` and spec §3/§5)? -/
def is_terminal : StreamEvent → Bool
  | StreamEvent.completed _ _ _ => true
  | StreamEvent.error _ _ _ => true
  | StreamEvent.cancelled _ _ => true
  | _ => false

/-- The `request_id` field every `StreamEvent` variant carries. -/
def event_request_id : StreamEvent → RequestId
  | StreamEvent.started i _ => i
  | StreamEvent.coordinatorThinking i _ => i
  | StreamEvent.textChunk i _ => i
  | StreamEvent.objectChunk i _ => i
  | StreamEvent.documentChunk i _ => i
  | StreamEvent.descriptionChunk i _ => i
  | StreamEvent.comparisonChunk i _ => i
  | StreamEvent.completed i _ _ => i
  | StreamEvent.error i _ _ => i
  | StreamEvent.cancelled i _ => i

/-- The `recoverable` flag of an `Error` event, `none` for other kinds. -/
def error_recoverable : StreamEvent → Option Bool
  | StreamEvent.error _ _ r => some r
  | _ => none

-- ============================================================================
-- Cancellation token and request manager
-- ============================================================================

/-- The operations `CancellationToken` offers
(`src/agents/master_agent.rs`): `cancel`, `is_cancelled`, `check`. -/
inductive TokenOp
  | cancel
  | is_cancelled
  | check
deriving DecidableEq, Repr

/-- Effect of one token operation on the guarded flag: `cancel` writes
`true` (`*cancelled = true`); `is_cancelled` and `check` only read. -/
def token_step (b : Bool) : TokenOp → Bool
  | TokenOp.cancel => true
  | TokenOp.is_cancelled => b
  | TokenOp.check => b

/-- The flag after a sequence of token operations. -/
def token_run (b : Bool) (ops : List TokenOp) : Bool :=
  List.foldl token_step b ops

/-- `CancellationToken::check`: `Err("Operation cancelled")` when the flag
is set, `Ok(())` otherwise. -/
def token_check (b : Bool) : Except String Unit :=
  if b then Except.error "Operation cancelled" else Except.ok ()

/-- The `RequestManager`'s `active_requests` map: drawn uuid to the current
value of the shared token registered under it. -/
abbrev Registry := List (Nat × Bool)

/-- `HashMap` lookup. -/
def registry_find (r : Registry) (id : Nat) : Option Bool :=
  match r.find? (fun p => p.1 == id) with
  | some p => some p.2
  | none => none

/-- `HashMap::insert` (replaces any entry with the same key). -/
def registry_put (r : Registry) (id : Nat) (tok : Bool) : Registry :=
  (id, tok) :: r.filter (fun p => p.1 != id)

/-- `RequestManager::register`: create a fresh (uncancelled) token and
insert it under the given id. -/
def manager_register (r : Registry) (id : Nat) : Registry :=
  registry_put r id false

/-- `RequestManager::cancel`: if the id is present, cancel the shared token
registered under it and return `true`; otherwise return `false`. -/
def manager_cancel (r : Registry) (id : Nat) : Bool × Registry :=
  match registry_find r id with
  | some _ => (true, registry_put r id true)
  | none => (false, r)

/-- `RequestManager::unregister`: remove the entry unconditionally. -/
def manager_unregister (r : Registry) (id : Nat) : Registry :=
  r.filter (fun p => p.1 != id)

-- ============================================================================
-- Specialized handlers
-- ============================================================================

/-- One step a handler or the orchestrator performs, in order: an event
emission on the channel, or an invocation of the external inference
backend (`agent.prompt(...)`), recorded with its preamble and prompt. -/
inductive AgentAction
  | emit (event : StreamEvent)
  | backendCall (preamble : String) (prompt : String)
deriving DecidableEq, Repr

/-- The events among a list of actions, in emission order. -/
def emitted : List AgentAction → List StreamEvent
  | [] => []
  | AgentAction.emit e :: rest => e :: emitted rest
  | AgentAction.backendCall _ _ :: rest => emitted rest

/-- Rust `Debug` rendering of a `Period`. -/
def fmt_period : Period → String
  | Period.day => "Day"
  | Period.week => "Week"
  | Period.month => "Month"
  | Period.year => "Year"

/-- Rust `Debug` rendering of an `Option<Period>`. -/
def fmt_opt_period : Option Period → String
  | none => "None"
  | some p => "Some(" ++ fmt_period p ++ ")"

/-- Rust `Debug` rendering of an `Option<usize>`. -/
def fmt_opt_nat : Option Nat → String
  | none => "None"
  | some n => "Some(" ++ toString n ++ ")"

/-- The parameter line every non-chat agent appends to its prompt. -/
def params_line (p : TaskParameters) : String :=
  "Parameters: last=" ++ toString p.last ++ ", all=" ++ toString p.all ++
    ", period=" ++ fmt_opt_period p.period ++ ", amount=" ++ fmt_opt_nat p.amount

/-- Structural helper for `chunk_chars`: the fuel is always at least the
list's length, so the middle case is never reached. -/
def chunk_chars_fuel : Nat → List Char → List (List Char)
  | _, [] => []
  | 0, c :: cs => [(c :: cs).take 20]
  | fuel + 1, c :: cs => (c :: cs).take 20 :: chunk_chars_fuel fuel (cs.drop 19)

/-- Chunks of 20 characters, as `response.chars().collect().chunks(20)` in
`ChatAgent::execute`: repeatedly take 20 characters and recurse on the
rest, the list's own length serving as structural fuel. -/
def chunk_chars (cs : List Char) : List (List Char) :=
  chunk_chars_fuel cs.length cs

/-- `ChatAgent::execute` (`src/agents/chat_agent.rs`): call the backend
first, then stream the response in 20-character `TextChunk`s. -/
def chat_agent_execute (request_id : RequestId) (prompt language : String)
    (backend : Except String String) : List AgentAction × Except String String :=
  let call := AgentAction.backendCall
    ("You are a friendly chat assistant. Respond naturally in " ++ language ++ " language.")
    prompt
  match backend with
  | Except.error e => ([call], Except.error e)
  | Except.ok response =>
      (call :: (chunk_chars response.toList).map
          (fun c => AgentAction.emit (StreamEvent.textChunk request_id c.asString)),
        Except.ok response)

/-- `ObjectAgent::execute` (`src/agents/object_agent.rs`): leading
`TextChunk`, backend call, response `TextChunk`, one `ObjectChunk`. -/
def object_agent_execute (request_id : RequestId) (prompt : String)
    (parameters : TaskParameters) (backend : Except String String) :
    List AgentAction × Except String String :=
  let lead := AgentAction.emit
    (StreamEvent.textChunk request_id "Processing object request...\n")
  let call := AgentAction.backendCall
    "You are an object management system. Return structured object data in JSON format."
    ("You are an object retrieval assistant. User request: " ++ prompt ++ "\n" ++
      params_line parameters)
  match backend with
  | Except.error e => ([lead, call], Except.error e)
  | Except.ok response =>
      ([lead, call,
        AgentAction.emit (StreamEvent.textChunk request_id
          ("Found objects:\n" ++ response ++ "\n")),
        AgentAction.emit (StreamEvent.objectChunk request_id parameters)],
        Except.ok response)

/-- `DocumentAgent::execute` (`src/agents/document_agent.rs`). -/
def document_agent_execute (request_id : RequestId) (prompt : String)
    (parameters : TaskParameters) (backend : Except String String) :
    List AgentAction × Except String String :=
  let lead := AgentAction.emit
    (StreamEvent.textChunk request_id "Retrieving documents...\n")
  let call := AgentAction.backendCall
    "You are a document management system. Return structured document data in JSON format."
    ("You are a document retrieval assistant. User request: " ++ prompt ++ "\n" ++
      params_line parameters)
  match backend with
  | Except.error e => ([lead, call], Except.error e)
  | Except.ok response =>
      ([lead, call,
        AgentAction.emit (StreamEvent.textChunk request_id
          ("Document results:\n" ++ response ++ "\n")),
        AgentAction.emit (StreamEvent.documentChunk request_id parameters)],
        Except.ok response)

/-- `DescriptionAgent::execute` (`src/agents/description_agent.rs`). -/
def description_agent_execute (request_id : RequestId) (prompt : String)
    (parameters : TaskParameters) (backend : Except String String) :
    List AgentAction × Except String String :=
  let lead := AgentAction.emit
    (StreamEvent.textChunk request_id "Generating description...\n")
  let call := AgentAction.backendCall
    "You are a detailed description assistant. Provide comprehensive explanations in a structured format."
    ("You are a description generator. Provide detailed description for: " ++ prompt ++ "\n" ++
      params_line parameters)
  match backend with
  | Except.error e => ([lead, call], Except.error e)
  | Except.ok response =>
      ([lead, call,
        AgentAction.emit (StreamEvent.textChunk request_id
          ("Description:\n" ++ response ++ "\n")),
        AgentAction.emit (StreamEvent.descriptionChunk request_id parameters)],
        Except.ok response)

/-- `ComparisonAgent::execute` (`src/agents/comparison_agent.rs`). -/
def comparison_agent_execute (request_id : RequestId) (prompt : String)
    (parameters : TaskParameters) (backend : Except String String) :
    List AgentAction × Except String String :=
  let lead := AgentAction.emit
    (StreamEvent.textChunk request_id "Performing comparison analysis...\n")
  let call := AgentAction.backendCall
    "You are a comparison specialist. Provide detailed comparative analysis with pros, cons, and recommendations."
    ("You are a comparison analyst. Compare items based on: " ++ prompt ++ "\n" ++
      params_line parameters)
  match backend with
  | Except.error e => ([lead, call], Except.error e)
  | Except.ok response =>
      ([lead, call,
        AgentAction.emit (StreamEvent.textChunk request_id
          ("Comparison results:\n" ++ response ++ "\n")),
        AgentAction.emit (StreamEvent.comparisonChunk request_id parameters)],
        Except.ok response)

-- ============================================================================
-- Orchestrator (MasterAgent)
-- ============================================================================

/-- The `match task` dispatch of `MasterAgent::process_request`. -/
def dispatch (request_id : RequestId) (message language : String) (task : Task)
    (backend : Except String String) : List AgentAction × Except String String :=
  match task with
  | Task.object parameters => object_agent_execute request_id message parameters backend
  | Task.document parameters => document_agent_execute request_id message parameters backend
  | Task.description parameters => description_agent_execute request_id message parameters backend
  | Task.comparison parameters => comparison_agent_execute request_id message parameters backend
  | Task.chat => chat_agent_execute request_id message language backend

/-- `MasterAgent::process_request`: `CoordinatorThinking`, checkpoint,
parse, classify, checkpoint, dispatch. `token1`/`token2` are the values of
the shared cancellation flag at the two `check()` calls; `parse` is the
outcome of the context parser (whose source file is not in the sources),
`backend` the outcome of the external inference call. -/
def process_request (request_id : RequestId) (message language : String)
    (token1 token2 : Bool) (parse : Except String PromptContext)
    (backend : Except String String) : List AgentAction × Except String String :=
  let think := AgentAction.emit (StreamEvent.coordinatorThinking request_id
    "Analyzing request and determining task type...")
  match token_check token1 with
  | Except.error e => ([think], Except.error e)
  | Except.ok _ =>
    match parse with
    | Except.error e => ([think], Except.error e)
    | Except.ok prompt_context =>
      match detect_task prompt_context message with
      | Except.error e => ([think], Except.error e)
      | Except.ok task =>
        match token_check token2 with
        | Except.error e => ([think], Except.error e)
        | Except.ok _ =>
          let hr := dispatch request_id message language task backend
          (think :: hr.1, hr.2)

/-- The `match result` at the end of the spawned body: `Completed` on
success; on failure `Cancelled` when the message contains `"cancelled"`,
else `Error` with `recoverable: false`. -/
def terminal_event (request_id : RequestId) (now : Int) :
    Except String String → StreamEvent
  | Except.ok final_result => StreamEvent.completed request_id final_result now
  | Except.error e =>
      if contains_substring e "cancelled" then
        StreamEvent.cancelled request_id "User cancelled"
      else
        StreamEvent.error request_id e false

/-- The uuid counter and the shared registry of the `MasterAgent`. -/
structure OrchestratorState where
  next_uuid : Nat
  registry : Registry
deriving DecidableEq, Repr

/-- The ids drawn by one spawned request body and the registry right after
registration. -/
structure Spawned where
  registered_id : Nat
  stream_id : Nat
  next_uuid : Nat
  registry : Registry
deriving DecidableEq, Repr

/-- The start of the spawned body of `MasterAgent::handle_request_stream`:
`request_manager.register(Uuid::now_v7().to_string())` draws one uuid and
registers the token under it; `AgentContext::from_request` then draws a
second uuid as the context's `request_id`. -/
def spawn_register (s : OrchestratorState) : Spawned :=
  { registered_id := s.next_uuid
    stream_id := s.next_uuid + 1
    next_uuid := s.next_uuid + 2
    registry := manager_register s.registry s.next_uuid }

/-- The rest of the spawned body, from the `Started` emission to the final
`unregister(&request_id)`. `sp.registry` is the registry when the body
resumes (an external `cancel` may have run in between); the checkpoints
inside `process_request` read the shared token the body registered, i.e.
the entry under `registered_id`. Returns the events in emission order and
the final registry. -/
def finish_request (sp : Spawned) (message language : String)
    (parse : Except String PromptContext) (backend : Except String String)
    (now : Int) : List StreamEvent × Registry :=
  let request_id := RequestId.uuid sp.stream_id
  let token := registry_find sp.registry sp.registered_id == some true
  let pr := process_request request_id message language token token parse backend
  (StreamEvent.started request_id now :: emitted pr.1 ++
      [terminal_event request_id now pr.2],
    manager_unregister sp.registry sp.stream_id)

-- ============================================================================
-- Bounded event channel and SSE adapter
-- ============================================================================

/-- The bounded mpsc channel: buffered events, fixed capacity, and whether
the receiver has been dropped. -/
structure Channel where
  buffer : List StreamEvent
  capacity : Nat
  closed : Bool
deriving DecidableEq, Repr

/-- Immediate outcome of one send for the producer coroutine. -/
inductive SendResult
  | delivered
  | dropped
  | suspended
deriving DecidableEq, Repr

/-- One `tx.send(event).await` on the tokio bounded channel, as used via
`let _ = tx.send(event).await`: on a closed channel (receiver dropped)
`send` returns an error at once and the ignored result means the event is
dropped; on an open channel the send suspends until capacity is available,
so with a full buffer the producer stays suspended. -/
def channel_send (ch : Channel) (event : StreamEvent) : SendResult × Channel :=
  if ch.closed then (SendResult.dropped, ch)
  else if ch.buffer.length < ch.capacity then
    (SendResult.delivered, { ch with buffer := ch.buffer ++ [event] })
  else (SendResult.suspended, ch)

/-- The channel `handle_request_stream` creates: `mpsc::channel(100)`. -/
def fresh_channel : Channel :=
  { buffer := [], capacity := 100, closed := false }

/-- The event loop of `chat_stream_handler` (`src/handlers.rs`), abstracted
over the serialization oracle: events that serialize are forwarded, the
loop stops after a terminal event; a serialization failure makes the loop
construct and forward its own `Error` event (request id `"unknown"`,
`recoverable: false`) and stop. Returns the `StreamEvent`s placed on the
wire. -/
def chat_stream_wire (ser_ok : StreamEvent → Bool) (ser_msg : StreamEvent → String) :
    List StreamEvent → List StreamEvent
  | [] => []
  | event :: rest =>
    if ser_ok event then
      if is_terminal event then [event]
      else event :: chat_stream_wire ser_ok ser_msg rest
    else
      [StreamEvent.error RequestId.unknown
        ("Serialization error: " ++ ser_msg event) false]

-- ============================================================================
-- Auxiliary definitions for the statements
-- ============================================================================

/-- Does a handler trace open with an emitted `TextChunk` (so the
announcement precedes every other action, in particular every backend
call)? -/
def leads_with_text_chunk : List AgentAction → Bool
  | AgentAction.emit (StreamEvent.textChunk _ _) :: _ => true
  | _ => false

/-- A throwaway event for channel scenarios. -/
def probe_event : StreamEvent :=
  StreamEvent.textChunk (RequestId.uuid 0) "x"

/-- The request channel at capacity: 100 buffered events, receiver alive. -/
def full_channel : Channel :=
  { buffer := List.replicate 100 probe_event, capacity := 100, closed := false }

/-- A channel whose receiver has been dropped. -/
def closed_channel : Channel :=
  { buffer := [], capacity := 100, closed := true }

/-- The state of a freshly constructed `MasterAgent`: empty registry. -/
def fresh_master : OrchestratorState :=
  { next_uuid := 0, registry := [] }

/-- A parsed context holding both the Comparison and the Document keys. -/
def both_keys_context : PromptContext :=
  { keys := [PromptKey.comparison, PromptKey.document], period := none, amount := none }

/-- A parsed context with no recognized keys at all. -/
def no_keys_context : PromptContext :=
  { keys := [], period := none, amount := none }

-- ============================================================================
-- Helper lemmas
-- ============================================================================

/-- No token operation resets the flag once set. -/
theorem token_step_true (op : TokenOp) : token_step true op = true := by
  cases op <;> rfl

/-- `detect_task` is the spec's priority cascade, wrapped in `Ok`. -/
theorem detect_task_eq_priority (context : PromptContext) (p : String) :
    detect_task context p = Except.ok (spec_priority_choice context) := by
  unfold detect_task spec_priority_choice
  split_ifs <;> rfl

/-- A handler invoked on a failing backend propagates the failure. -/
theorem dispatch_error_result (rid : RequestId) (m l e : String) (task : Task) :
    (dispatch rid m l task (Except.error e)).2 = Except.error e := by
  cases task <;> rfl

/-- A handler invoked on a successful backend returns the raw completion. -/
theorem dispatch_ok_result (rid : RequestId) (m l response : String) (task : Task) :
    (dispatch rid m l task (Except.ok response)).2 = Except.ok response := by
  cases task <;> rfl

/-- Emissions of a mapped emit-list are the mapped events. -/
theorem emitted_map_emit {α : Type} (f : α → StreamEvent) (l : List α) :
    emitted (l.map (fun x => AgentAction.emit (f x))) = l.map f := by
  induction l with
  | nil => rfl
  | cons x xs ih => simp [emitted, ih]

/-- Every event a handler emits is a content event: not terminal, and
carrying the handler's request id. -/
theorem dispatch_emits_content (rid : RequestId) (m l : String) (task : Task)
    (backend : Except String String) :
    ∀ ev ∈ emitted (dispatch rid m l task backend).1,
      is_terminal ev = false ∧ event_request_id ev = rid := by
  cases task <;> cases backend <;>
    simp [dispatch, object_agent_execute, document_agent_execute,
      description_agent_execute, comparison_agent_execute, chat_agent_execute,
      emitted, emitted_map_emit, is_terminal, event_request_id, List.mem_map]

/-- The actions of `process_request`: the `CoordinatorThinking` emission,
alone when a checkpoint or the parse cut the run short, else followed by
the dispatched handler's actions. -/
theorem process_request_trace (rid : RequestId) (m l : String) (t1 t2 : Bool)
    (parse : Except String PromptContext) (backend : Except String String) :
    (process_request rid m l t1 t2 parse backend).1 =
        [AgentAction.emit (StreamEvent.coordinatorThinking rid
          "Analyzing request and determining task type...")] ∨
      ∃ task, (process_request rid m l t1 t2 parse backend).1 =
        AgentAction.emit (StreamEvent.coordinatorThinking rid
          "Analyzing request and determining task type...") ::
          (dispatch rid m l task backend).1 := by
  cases t1 with
  | true => left; simp [process_request, token_check]
  | false =>
      cases parse with
      | error e => left; simp [process_request, token_check]
      | ok pctx =>
          cases t2 with
          | true => left; simp [process_request, token_check, detect_task_eq_priority]
          | false =>
              right
              exact ⟨spec_priority_choice pctx,
                by simp [process_request, token_check, detect_task_eq_priority]⟩

/-- Every event `process_request` emits is a content event: not terminal,
and carrying the orchestration's request id. -/
theorem process_request_emits_content (rid : RequestId) (m l : String)
    (t1 t2 : Bool) (parse : Except String PromptContext)
    (backend : Except String String) :
    ∀ ev ∈ emitted (process_request rid m l t1 t2 parse backend).1,
      is_terminal ev = false ∧ event_request_id ev = rid := by
  intro ev hev
  rcases process_request_trace rid m l t1 t2 parse backend with h | ⟨task, h⟩ <;>
    rw [h] at hev
  · simp [emitted] at hev
    simp [hev, is_terminal, event_request_id]
  · simp only [emitted, List.mem_cons] at hev
    rcases hev with he | he
    · simp [he, is_terminal, event_request_id]
    · exact dispatch_emits_content rid m l task backend ev he

/-- The terminal match always produces a terminal event carrying the
request id, and never an `Error` with `recoverable = true`. -/
theorem terminal_event_shape (rid : RequestId) (now : Int)
    (res : Except String String) :
    is_terminal (terminal_event rid now res) = true ∧
    event_request_id (terminal_event rid now res) = rid ∧
    error_recoverable (terminal_event rid now res) ≠ some true := by
  cases res with
  | ok r => simp [terminal_event, is_terminal, event_request_id, error_recoverable]
  | error e =>
      by_cases h : contains_substring e "cancelled" = true <;>
        simp [terminal_event, h, is_terminal, event_request_id, error_recoverable]

/-- Non-terminal events are not `Error` events at all. -/
theorem error_recoverable_of_not_terminal (ev : StreamEvent)
    (h : is_terminal ev = false) : error_recoverable ev = none := by
  cases ev <;> simp_all [is_terminal, error_recoverable]

/-- The last element of `x :: l ++ [t]` is `t`. -/
theorem getLast?_cons_append_singleton {α : Type} (x t : α) (l : List α) :
    (x :: l ++ [t]).getLast? = some t := by
  induction l generalizing x with
  | nil => rfl
  | cons y ys ih => exact ih y

/-- Events on the SSE wire either come from the receiver's stream or are
the adapter's own serialization-failure event. -/
theorem chat_stream_wire_mem (f : StreamEvent → Bool) (g : StreamEvent → String) :
    ∀ (l : List StreamEvent) (ev : StreamEvent), ev ∈ chat_stream_wire f g l →
      ev ∈ l ∨ error_recoverable ev = some false := by
  intro l
  induction l with
  | nil => simp [chat_stream_wire]
  | cons x rest ih =>
      intro ev h
      unfold chat_stream_wire at h
      by_cases hok : f x = true
      · rw [if_pos hok] at h
        by_cases ht : is_terminal x = true
        · rw [if_pos ht] at h
          simp at h
          exact Or.inl (h ▸ List.mem_cons_self x rest)
        · rw [if_neg ht] at h
          rcases List.mem_cons.mp h with he | he
          · exact Or.inl (he ▸ List.mem_cons_self x rest)
          · rcases ih ev he with hm | hr
            · exact Or.inl (List.mem_cons_of_mem x hm)
            · exact Or.inr hr
      · rw [if_neg hok] at h
        simp at h
        subst h
        exact Or.inr rfl

/-- A key absent from a registry is still absent after any filtering. -/
theorem registry_find_filter_none (r : Registry) (id : Nat)
    (p : Nat × Bool → Bool) (h : registry_find r id = none) :
    registry_find (r.filter p) id = none := by
  unfold registry_find at h ⊢
  rcases hf : List.find? (fun q => q.1 == id) (r.filter p) with _ | q
  · rw [hf]
  · have hmem := List.mem_filter.mp (List.mem_of_find?_eq_some hf)
    have hq := List.find?_some hf
    have : List.find? (fun q => q.1 == id) r ≠ none := by
      intro hnone
      have := List.find?_eq_none.mp hnone q hmem.1
      exact this hq
    rcases hn : List.find? (fun q => q.1 == id) r with _ | _
    · exact absurd hn this
    · rw [hn] at h
      simp at h

/-- The shape of `finish_request`'s last emitted event: the terminal match
applied to the processing result, under the body's own token. -/
theorem finish_request_last (sp : Spawned) (m l : String)
    (parse : Except String PromptContext) (backend : Except String String)
    (now : Int) :
    (finish_request sp m l parse backend now).1.getLast? =
      some (terminal_event (RequestId.uuid sp.stream_id) now
        (process_request (RequestId.uuid sp.stream_id) m l
          (registry_find sp.registry sp.registered_id == some true)
          (registry_find sp.registry sp.registered_id == some true)
          parse backend).2) := by
  simp only [finish_request]
  exact getLast?_cons_append_singleton _ _ _

/-- The token registered by the spawned body starts out clear. -/
theorem spawn_token_clear (s : OrchestratorState) :
    registry_find (spawn_register s).registry (spawn_register s).registered_id =
      some false := by
  simp [spawn_register, manager_register, registry_put, registry_find, List.find?]

/-- With a clear token the processing result is the dispatched handler's. -/
theorem process_request_result_clear_token (rid : RequestId) (m l : String)
    (context : PromptContext) (backend : Except String String) :
    (process_request rid m l false false (Except.ok context) backend).2 =
      (dispatch rid m l (spec_priority_choice context) backend).2 := by
  simp [process_request, token_check, detect_task_eq_priority]

/-- Looking up the id at the head of the registry. -/
theorem registry_find_cons_self (r : Registry) (id : Nat) (b : Bool) :
    registry_find ((id, b) :: r) id = some b := by
  unfold registry_find
  rw [List.find?_cons_of_pos _ (by simp)]

/-- Removal by one key keeps an entry under a different key. -/
theorem filter_keep_of_ne (x : Nat × Bool) (id : Nat) (l : List (Nat × Bool))
    (h : x.1 ≠ id) :
    List.filter (fun q => q.1 != id) (x :: l) =
      x :: List.filter (fun q => q.1 != id) l :=
  List.filter_cons_of_pos (by simp [h])

/-- `Started` events are not terminal. -/
theorem is_terminal_started (i : RequestId) (t : Int) :
    is_terminal (StreamEvent.started i t) = false := rfl

-- ============================================================================
-- Claim theorems
-- ============================================================================

/-- C5: `detect_task` evaluates the fixed priority order Comparison >
Description > Document > Object > Chat top to bottom, first match winning
(it agrees with the spec-side cascade `spec_priority_choice` on every
context); in particular a key set containing both the Comparison and the
Document keys yields `Task::Comparison` and never `Task::Document`. -/
theorem detect_task_priority_first_match :
    (∀ (context : PromptContext) (p : String),
      detect_task context p = Except.ok (spec_priority_choice context)) ∧
    ∀ (context : PromptContext) (p : String),
      context.keys.contains PromptKey.comparison = true →
      context.keys.contains PromptKey.document = true →
      detect_task context p = Except.ok (Task.comparison (build_parameters context)) ∧
      ∀ parameters, detect_task context p ≠ Except.ok (Task.document parameters) := by
  refine ⟨detect_task_eq_priority, ?_⟩
  intro context p hc _hd
  have hc' : PromptKey.comparison ∈ context.keys := by simpa using hc
  refine ⟨by simp [detect_task, hc'], ?_⟩
  intro parameters h
  simp [detect_task, hc'] at h

/-- Witness for C5 at a context holding both keys. -/
theorem detect_task_priority_first_match_witness :
    both_keys_context.keys.contains PromptKey.comparison = true ∧
    both_keys_context.keys.contains PromptKey.document = true ∧
    (detect_task both_keys_context "compare the last 2 documents" =
        Except.ok (Task.comparison (build_parameters both_keys_context)) ∧
      ∀ parameters, detect_task both_keys_context "compare the last 2 documents" ≠
        Except.ok (Task.document parameters)) :=
  ⟨by decide, by decide,
    detect_task_priority_first_match.2 both_keys_context "compare the last 2 documents"
      (by decide) (by decide)⟩

/-- C6: `detect_task` always succeeds, and a key set containing none of the
four domain keys yields `Task::Chat`. -/
theorem detect_task_total_default_chat :
    ∀ (context : PromptContext) (p : String),
      (∃ t, detect_task context p = Except.ok t) ∧
      (context.keys.contains PromptKey.comparison = false →
        context.keys.contains PromptKey.description = false →
        context.keys.contains PromptKey.document = false →
        context.keys.contains PromptKey.object = false →
        detect_task context p = Except.ok Task.chat) := by
  intro context p
  refine ⟨⟨spec_priority_choice context, detect_task_eq_priority context p⟩, ?_⟩
  intro h1 h2 h3 h4
  have h1' : PromptKey.comparison ∉ context.keys := by simpa using h1
  have h2' : PromptKey.description ∉ context.keys := by simpa using h2
  have h3' : PromptKey.document ∉ context.keys := by simpa using h3
  have h4' : PromptKey.object ∉ context.keys := by simpa using h4
  simp [detect_task, h1', h2', h3', h4']

/-- Witness for C6 at the empty key set. -/
theorem detect_task_total_default_chat_witness :
    no_keys_context.keys.contains PromptKey.comparison = false ∧
    no_keys_context.keys.contains PromptKey.description = false ∧
    no_keys_context.keys.contains PromptKey.document = false ∧
    no_keys_context.keys.contains PromptKey.object = false ∧
    detect_task no_keys_context "hello, how are you?" = Except.ok Task.chat :=
  ⟨by decide, by decide, by decide, by decide,
    (detect_task_total_default_chat no_keys_context "hello, how are you?").2
      (by decide) (by decide) (by decide) (by decide)⟩

/-- C7: the cancellation token is a one-way latch — once `true`, no sequence
of token operations resets it — and registry cancellation is idempotent: on
a registered id the first call returns `true` and cancels the token, and a
second call still returns `true` while changing nothing further. -/
theorem cancellation_latch_and_idempotent_cancel :
    (∀ ops : List TokenOp, token_run true ops = true) ∧
    ∀ (r : Registry) (id : Nat), (registry_find r id).isSome = true →
      (manager_cancel r id).1 = true ∧
      registry_find (manager_cancel r id).2 id = some true ∧
      (manager_cancel (manager_cancel r id).2 id).1 = true ∧
      (manager_cancel (manager_cancel r id).2 id).2 = (manager_cancel r id).2 := by
  constructor
  · intro ops
    induction ops with
    | nil => rfl
    | cons op ops ih => simpa [token_run, List.foldl, token_step_true] using ih
  · intro r id h
    obtain ⟨b, hb⟩ := Option.isSome_iff_exists.mp h
    have h1 : manager_cancel r id = (true, registry_put r id true) := by
      simp [manager_cancel, hb]
    have hfind : registry_find (registry_put r id true) id = some true := by
      unfold registry_find registry_put
      rw [List.find?_cons_of_pos _ (by simp)]
    have h2 : manager_cancel (registry_put r id true) id =
        (true, registry_put (registry_put r id true) id true) := by
      simp [manager_cancel, hfind]
    have h3 : registry_put (registry_put r id true) id true =
        registry_put r id true := by
      simp [registry_put, List.filter_cons, List.filter_filter]
    rw [h1]
    exact ⟨rfl, hfind, by rw [h2], by rw [h2]; exact h3⟩

/-- Witness for C7 on a registry holding id 5. -/
theorem cancellation_latch_and_idempotent_cancel_witness :
    (registry_find [(5, false)] 5).isSome = true ∧
    ((manager_cancel [(5, false)] 5).1 = true ∧
      registry_find (manager_cancel [(5, false)] 5).2 5 = some true ∧
      (manager_cancel (manager_cancel [(5, false)] 5).2 5).1 = true ∧
      (manager_cancel (manager_cancel [(5, false)] 5).2 5).2 =
        (manager_cancel [(5, false)] 5).2) :=
  ⟨by decide, cancellation_latch_and_idempotent_cancel.2 [(5, false)] 5 (by decide)⟩

/-- C4 as stated is false: a send on the full but open channel (capacity
100, 100 buffered events, receiver still attached) suspends the producer
instead of dropping the event. -/
theorem send_on_full_open_channel_suspends :
    (channel_send full_channel probe_event).1 = SendResult.suspended ∧
    SendResult.suspended ≠ SendResult.dropped :=
  ⟨by decide, by decide⟩

/-- C4 amended: a send to a closed channel (receiver dropped) is discarded
immediately without suspending — so an abandoned consumer that dropped the
receiver never blocks the producer — but a send to a full channel whose
receiver is still attached suspends the producer until capacity frees. -/
theorem channel_send_closed_drops_full_suspends :
    ∀ (ch : Channel) (event : StreamEvent),
      (ch.closed = true → channel_send ch event = (SendResult.dropped, ch)) ∧
      (ch.closed = false → ch.capacity ≤ ch.buffer.length →
        channel_send ch event = (SendResult.suspended, ch)) := by
  intro ch event
  constructor
  · intro h
    simp [channel_send, h]
  · intro h1 h2
    have h3 : ¬ ch.buffer.length < ch.capacity := by omega
    simp [channel_send, h1, h3]

/-- Witness for the amended C4 on a closed and on a full channel. -/
theorem channel_send_closed_drops_full_suspends_witness :
    (closed_channel.closed = true ∧
      channel_send closed_channel probe_event = (SendResult.dropped, closed_channel)) ∧
    (full_channel.closed = false ∧
      full_channel.capacity ≤ full_channel.buffer.length ∧
      channel_send full_channel probe_event = (SendResult.suspended, full_channel)) :=
  ⟨⟨by decide,
      (channel_send_closed_drops_full_suspends closed_channel probe_event).1 (by decide)⟩,
    ⟨by decide, by decide,
      (channel_send_closed_drops_full_suspends full_channel probe_event).2
        (by decide) (by decide)⟩⟩

/-- C8 as stated is false for the Chat handler: on the concrete prompt
"hello, how are you?" with backend reply "Hi!", the trace of
`ChatAgent::execute` does not open with an emitted `TextChunk` — its first
action is the backend invocation. -/
theorem chat_agent_lacks_leading_chunk :
    leads_with_text_chunk
      (chat_agent_execute (RequestId.uuid 1) "hello, how are you?" "en"
        (Except.ok "Hi!")).1 = false := by decide

/-- C8 amended: each of the four non-chat handlers opens its trace with the
leading `TextChunk` announcing its operation, emitted before the backend
call, whatever the backend outcome; the Chat handler instead calls the
backend first and emits no leading announcement. -/
theorem handlers_leading_chunk :
    ∀ (rid : RequestId) (prompt language : String) (parameters : TaskParameters)
      (backend : Except String String),
      (object_agent_execute rid prompt parameters backend).1.head? =
        some (AgentAction.emit (StreamEvent.textChunk rid
          "Processing object request...\n")) ∧
      (document_agent_execute rid prompt parameters backend).1.head? =
        some (AgentAction.emit (StreamEvent.textChunk rid
          "Retrieving documents...\n")) ∧
      (description_agent_execute rid prompt parameters backend).1.head? =
        some (AgentAction.emit (StreamEvent.textChunk rid
          "Generating description...\n")) ∧
      (comparison_agent_execute rid prompt parameters backend).1.head? =
        some (AgentAction.emit (StreamEvent.textChunk rid
          "Performing comparison analysis...\n")) ∧
      ∃ preamble bprompt, (chat_agent_execute rid prompt language backend).1.head? =
        some (AgentAction.backendCall preamble bprompt) := by
  intro rid prompt language parameters backend
  cases backend <;> exact ⟨rfl, rfl, rfl, rfl, _, _, rfl⟩

/-- C9: when request processing fails, the orchestrator's terminal event is
`Cancelled` exactly when the failure message contains the substring
"cancelled", and `Error` otherwise — so a handler or backend failure whose
message happens to contain "cancelled" is reported as a user
cancellation. -/
theorem terminal_cancelled_iff_message_contains :
    ∀ (s : OrchestratorState) (context : PromptContext)
      (e message language : String) (now : Int),
      (finish_request (spawn_register s) message language
          (Except.ok context) (Except.error e) now).1.getLast? =
        some (if contains_substring e "cancelled" then
            StreamEvent.cancelled (RequestId.uuid (s.next_uuid + 1)) "User cancelled"
          else StreamEvent.error (RequestId.uuid (s.next_uuid + 1)) e false) := by
  intro s context e message language now
  rw [finish_request_last, spawn_token_clear]
  have htok : (some false == some true) = false := rfl
  rw [htok, process_request_result_clear_token, dispatch_error_result]
  rfl

/-- C3: for every request, whatever the parse, backend and cancellation
outcomes, the emitted stream contains exactly one terminal event
(`Completed`, `Error` or `Cancelled`) and it is the last event emitted. -/
theorem stream_one_terminal_always_last :
    ∀ (sp : Spawned) (message language : String)
      (parse : Except String PromptContext) (backend : Except String String)
      (now : Int),
      (finish_request sp message language parse backend now).1.countP is_terminal = 1 ∧
      ∃ ev, (finish_request sp message language parse backend now).1.getLast? = some ev ∧
        is_terminal ev = true := by
  intro sp message language parse backend now
  constructor
  · have hzero : List.countP is_terminal
        (emitted (process_request (RequestId.uuid sp.stream_id) message language
          (registry_find sp.registry sp.registered_id == some true)
          (registry_find sp.registry sp.registered_id == some true)
          parse backend).1) = 0 := by
      apply List.countP_eq_zero.mpr
      intro ev hev
      simp [(process_request_emits_content _ _ _ _ _ _ _ ev hev).1]
    have ht := (terminal_event_shape (RequestId.uuid sp.stream_id) now
      (process_request (RequestId.uuid sp.stream_id) message language
        (registry_find sp.registry sp.registered_id == some true)
        (registry_find sp.registry sp.registered_id == some true)
        parse backend).2).1
    simp only [finish_request, List.countP_cons, List.countP_append,
      List.countP_nil, hzero, ht, is_terminal_started]
    simp
  · exact ⟨_, finish_request_last sp message language parse backend now,
      (terminal_event_shape _ _ _).1⟩

/-- C10: every `Error` event the pipeline produces — on the orchestrator's
stream and on the SSE wire, for any serialization oracle — carries
`recoverable = false`; none carries `recoverable = true`. -/
theorem error_events_not_recoverable :
    ∀ (sp : Spawned) (message language : String)
      (parse : Except String PromptContext) (backend : Except String String)
      (now : Int) (ser_ok : StreamEvent → Bool) (ser_msg : StreamEvent → String)
      (ev : StreamEvent),
      (ev ∈ (finish_request sp message language parse backend now).1 ∨
        ev ∈ chat_stream_wire ser_ok ser_msg
          (finish_request sp message language parse backend now).1) →
      error_recoverable ev ≠ some true := by
  intro sp message language parse backend now f g ev h
  have hstream : ∀ x ∈ (finish_request sp message language parse backend now).1,
      error_recoverable x ≠ some true := by
    intro x hx
    simp only [finish_request] at hx
    rcases List.mem_cons.mp hx with hx | hx
    · subst hx
      simp [error_recoverable]
    · rcases List.mem_append.mp hx with hx | hx
      · have hnt := (process_request_emits_content _ _ _ _ _ _ _ x hx).1
        simp [error_recoverable_of_not_terminal x hnt]
      · simp only [List.mem_singleton] at hx
        subst hx
        exact (terminal_event_shape _ _ _).2.2
  rcases h with h | h
  · exact hstream ev h
  · rcases chat_stream_wire_mem f g _ ev h with hm | hr
    · exact hstream ev hm
    · simp [hr]

/-- Witness for C10 at a failing backend: the produced `Error` event. -/
theorem error_events_not_recoverable_witness :
    (StreamEvent.error (RequestId.uuid 1) "boom" false ∈
      (finish_request (spawn_register fresh_master) "hello" "en"
        (Except.ok no_keys_context) (Except.error "boom") 7).1) ∧
    error_recoverable (StreamEvent.error (RequestId.uuid 1) "boom" false) ≠ some true :=
  ⟨by decide,
    error_events_not_recoverable (spawn_register fresh_master) "hello" "en"
      (Except.ok no_keys_context) (Except.error "boom") 7 (fun _ => true) (fun _ => "")
      (StreamEvent.error (RequestId.uuid 1) "boom" false) (Or.inl (by decide))⟩

/-- C1 fails in the code: the spawned body of `handle_request_stream`
registers the token under one fresh uuid, while its stream events and the
final `unregister` carry a second fresh uuid; after the terminal event the
entry created at registration is still present (leaked). -/
theorem registered_id_differs_and_leaks :
    ∀ (s : OrchestratorState) (message language : String)
      (parse : Except String PromptContext) (backend : Except String String)
      (now : Int),
      (spawn_register s).registered_id ≠ (spawn_register s).stream_id ∧
      (∀ ev ∈ (finish_request (spawn_register s) message language parse backend now).1,
        event_request_id ev = RequestId.uuid (spawn_register s).stream_id) ∧
      registry_find
        (finish_request (spawn_register s) message language parse backend now).2
        (spawn_register s).registered_id = some false := by
  intro s message language parse backend now
  refine ⟨by simp [spawn_register], ?_, ?_⟩
  · intro ev hev
    simp only [finish_request] at hev
    rcases List.mem_cons.mp hev with h | h
    · subst h
      rfl
    · rcases List.mem_append.mp h with h | h
      · exact (process_request_emits_content _ _ _ _ _ _ _ ev h).2
      · simp only [List.mem_singleton] at h
        subst h
        exact (terminal_event_shape _ _ _).2.1
  · have h2 : (finish_request (spawn_register s) message language parse backend now).2 =
        manager_unregister (spawn_register s).registry (spawn_register s).stream_id := rfl
    rw [h2]
    have h3 : manager_unregister (spawn_register s).registry (spawn_register s).stream_id =
        List.filter (fun q => q.1 != (s.next_uuid + 1))
          ((s.next_uuid, false) :: List.filter (fun q => q.1 != s.next_uuid) s.registry) := rfl
    rw [h3, filter_keep_of_ne (s.next_uuid, false) (s.next_uuid + 1) _ (by simp)]
    exact registry_find_cons_self _ _ _

/-- C2 fails in the code: on a fresh `MasterAgent`, cancelling with the
request id observed in the `Started` event, before the first checkpoint,
finds no registry entry — `cancel` returns `false` and changes nothing —
and the eventual terminal event is `Completed`, not `Cancelled`. -/
theorem cancel_by_observed_id_misses_token :
    ∀ (context : PromptContext) (message language response : String) (now : Int),
      manager_cancel (spawn_register fresh_master).registry
          (spawn_register fresh_master).stream_id =
        (false, (spawn_register fresh_master).registry) ∧
      (finish_request (spawn_register fresh_master) message language
          (Except.ok context) (Except.ok response) now).1.getLast? =
        some (StreamEvent.completed
          (RequestId.uuid (spawn_register fresh_master).stream_id) response now) := by
  intro context message language response now
  constructor
  · decide
  · rw [finish_request_last]
    have htok : (registry_find (spawn_register fresh_master).registry
        (spawn_register fresh_master).registered_id == some true) = false := rfl
    rw [htok, process_request_result_clear_token, dispatch_ok_result]
    rfl

end CxAgent
